import Mathlib

/-!
Verification of the conversation/message access-control core of a chat
application. The relational schema, trigger and row-level-security (RLS)
policies are embedded shallowly: each table is a list of rows, each SQL
policy is a boolean predicate over the database state, the caller's id and
the row, and each guarded mutation is a function returning `Except` with
the standard error taxonomy (policy denial, uniqueness violation).
Identifiers (UUID columns) are modelled as natural numbers.
-/

namespace RealChatLive

/-- UUID values are modelled as natural numbers. -/
abbrev UUID := Nat

/-- The `conversation_type` enum: `ENUM ('dm', 'group')`. -/
inductive ConversationType where
  | dm : ConversationType
  | group : ConversationType
deriving DecidableEq, Repr

/-- A row of `public.profiles` (timestamps omitted: no policy reads them). -/
structure Profile where
  id : UUID
  display_name : String
  avatar_url : Option String
deriving DecidableEq, Repr

/-- A row of `public.conversations` (timestamps omitted: no policy reads them). -/
structure Conversation where
  id : UUID
  ctype : ConversationType
  name : Option String
deriving DecidableEq, Repr

/-- A row of `public.conversation_members` (`joined_at` omitted). -/
structure ConversationMember where
  id : UUID
  conversation_id : UUID
  user_id : UUID
deriving DecidableEq, Repr

/-- A row of `public.messages` (`created_at` omitted). -/
structure Message where
  id : UUID
  conversation_id : UUID
  sender_id : UUID
  content : String
deriving DecidableEq, Repr

/-- A row of `public.read_receipts` (`read_at` omitted). -/
structure ReadReceipt where
  id : UUID
  message_id : UUID
  user_id : UUID
deriving DecidableEq, Repr

/-- The public-schema database state: one list of rows per table. -/
structure DBState where
  profiles : List Profile
  conversations : List Conversation
  conversation_members : List ConversationMember
  messages : List Message
  read_receipts : List ReadReceipt
deriving DecidableEq, Repr

/-- The helper predicate `public.is_conversation_member(_conversation_id,
_user_id)`: `SELECT EXISTS (SELECT 1 FROM conversation_members WHERE
conversation_id = _conversation_id AND user_id = _user_id)`. It runs with
definer privilege, so it reads the table directly, unfiltered by any policy. -/
def is_conversation_member (s : DBState) (_conversation_id _user_id : UUID) : Bool :=
  s.conversation_members.any
    (fun m => m.conversation_id == _conversation_id && m.user_id == _user_id)

/-- Policy "Users can view all profiles": `FOR SELECT USING (true)`. -/
def usersCanViewAllProfiles (_s : DBState) (_uid : UUID) (_p : Profile) : Bool :=
  true

/-- Policy "Users can insert own profile": `WITH CHECK (id = auth.uid())`. -/
def usersCanInsertOwnProfile (_s : DBState) (uid : UUID) (p : Profile) : Bool :=
  p.id == uid

/-- Policy "Users can update own profile": `USING (id = auth.uid())`. -/
def usersCanUpdateOwnProfile (_s : DBState) (uid : UUID) (p : Profile) : Bool :=
  p.id == uid

/-- Policy "Members can view conversations": `FOR SELECT USING
(is_conversation_member(id, auth.uid()))`. -/
def membersCanViewConversations (s : DBState) (uid : UUID) (c : Conversation) : Bool :=
  is_conversation_member s c.id uid

/-- Policy "Authenticated users can create conversations": `FOR INSERT WITH
CHECK (true)` (re-created unchanged by the second migration). -/
def authenticatedUsersCanCreateConversations (_s : DBState) (_uid : UUID) (_c : Conversation) : Bool :=
  true

/-- Policy "Members can update conversations": `FOR UPDATE USING
(is_conversation_member(id, auth.uid()))`. -/
def membersCanUpdateConversations (s : DBState) (uid : UUID) (c : Conversation) : Bool :=
  is_conversation_member s c.id uid

/-- Policy "Members can view conversation members": `FOR SELECT USING
(is_conversation_member(conversation_id, auth.uid()))`. -/
def membersCanViewConversationMembers (s : DBState) (uid : UUID) (r : ConversationMember) : Bool :=
  is_conversation_member s r.conversation_id uid

/-- Policy "Users can join or add members to their conversations" (the
second migration's replacement of "Authenticated users can add members"):
`FOR INSERT WITH CHECK (user_id = auth.uid() OR
is_conversation_member(conversation_id, auth.uid()))`. -/
def usersCanJoinOrAddMembers (s : DBState) (uid : UUID) (r : ConversationMember) : Bool :=
  r.user_id == uid || is_conversation_member s r.conversation_id uid

/-- Policy "Users can leave conversations": `FOR DELETE USING
(user_id = auth.uid())`. -/
def usersCanLeaveConversations (_s : DBState) (uid : UUID) (r : ConversationMember) : Bool :=
  r.user_id == uid

/-- Policy "Members can view messages": `FOR SELECT USING
(is_conversation_member(conversation_id, auth.uid()))`. -/
def membersCanViewMessages (s : DBState) (uid : UUID) (m : Message) : Bool :=
  is_conversation_member s m.conversation_id uid

/-- Policy "Members can send messages": `FOR INSERT WITH CHECK
(sender_id = auth.uid() AND is_conversation_member(conversation_id, auth.uid()))`. -/
def membersCanSendMessages (s : DBState) (uid : UUID) (m : Message) : Bool :=
  m.sender_id == uid && is_conversation_member s m.conversation_id uid

/-- Policy "Senders can update messages": `FOR UPDATE USING
(sender_id = auth.uid())`. -/
def sendersCanUpdateMessages (_s : DBState) (uid : UUID) (m : Message) : Bool :=
  m.sender_id == uid

/-- Policy "Senders can delete messages": `FOR DELETE USING
(sender_id = auth.uid())`. -/
def sendersCanDeleteMessages (_s : DBState) (uid : UUID) (m : Message) : Bool :=
  m.sender_id == uid

/-- Policy "Users can view read receipts in their conversations": `FOR SELECT
USING (EXISTS (SELECT 1 FROM messages m WHERE m.id = message_id AND
is_conversation_member(m.conversation_id, auth.uid())))`. -/
def usersCanViewReadReceipts (s : DBState) (uid : UUID) (r : ReadReceipt) : Bool :=
  s.messages.any (fun m => m.id == r.message_id && is_conversation_member s m.conversation_id uid)

/-- Policy "Users can mark messages as read": `FOR INSERT WITH CHECK
(user_id = auth.uid() AND EXISTS (SELECT 1 FROM messages m WHERE
m.id = message_id AND is_conversation_member(m.conversation_id, auth.uid())))`. -/
def usersCanMarkMessagesAsRead (s : DBState) (uid : UUID) (r : ReadReceipt) : Bool :=
  r.user_id == uid &&
    s.messages.any (fun m => m.id == r.message_id && is_conversation_member s m.conversation_id uid)

/-- The four SQL row operations a policy can cover. -/
inductive SqlOp where
  | select : SqlOp
  | insert : SqlOp
  | update : SqlOp
  | delete : SqlOp
deriving DecidableEq, Repr

/-- PostgreSQL RLS semantics for permissive policies on a table with RLS
enabled: an operation on a row is allowed iff SOME policy for that operation
permits it; with no policy for that operation, the default is deny. -/
def rlsAllows {α : Type} (ps : List (DBState → UUID → α → Bool))
    (s : DBState) (uid : UUID) (row : α) : Bool :=
  ps.any (fun p => p s uid row)

/-- The policies declared on `public.profiles`, per operation. -/
def profilesPolicies : SqlOp → List (DBState → UUID → Profile → Bool)
  | .select => [usersCanViewAllProfiles]
  | .insert => [usersCanInsertOwnProfile]
  | .update => [usersCanUpdateOwnProfile]
  | .delete => []

/-- The policies declared on `public.conversations`, per operation. There is
no DELETE policy. -/
def conversationsPolicies : SqlOp → List (DBState → UUID → Conversation → Bool)
  | .select => [membersCanViewConversations]
  | .insert => [authenticatedUsersCanCreateConversations]
  | .update => [membersCanUpdateConversations]
  | .delete => []

/-- The policies declared on `public.conversation_members` after the second
migration replaced the INSERT policy. There is no UPDATE policy. -/
def conversationMembersPolicies : SqlOp → List (DBState → UUID → ConversationMember → Bool)
  | .select => [membersCanViewConversationMembers]
  | .insert => [usersCanJoinOrAddMembers]
  | .update => []
  | .delete => [usersCanLeaveConversations]

/-- The policies declared on `public.messages`, per operation. -/
def messagesPolicies : SqlOp → List (DBState → UUID → Message → Bool)
  | .select => [membersCanViewMessages]
  | .insert => [membersCanSendMessages]
  | .update => [sendersCanUpdateMessages]
  | .delete => [sendersCanDeleteMessages]

/-- The policies declared on `public.read_receipts`. There is no UPDATE and
no DELETE policy. -/
def readReceiptsPolicies : SqlOp → List (DBState → UUID → ReadReceipt → Bool)
  | .select => [usersCanViewReadReceipts]
  | .insert => [usersCanMarkMessagesAsRead]
  | .update => []
  | .delete => []

/-- A `SELECT * FROM conversations` issued by caller `uid`: RLS filters the
table down to the rows the SELECT policies permit. -/
def select_conversations (s : DBState) (uid : UUID) : List Conversation :=
  s.conversations.filter (fun c => rlsAllows (conversationsPolicies .select) s uid c)

/-- Error taxonomy for guarded inserts: the RLS `WITH CHECK` rejects the row,
or a UNIQUE constraint rejects it. -/
inductive InsertError where
  | policyDenied : InsertError
  | uniqueViolation : InsertError
deriving DecidableEq, Repr

/-- INSERT into `conversation_members` by caller `uid`: the RLS `WITH CHECK`
of the INSERT policy must pass, then `UNIQUE(conversation_id, user_id)` must
hold. On success the row is added. -/
def insert_conversation_member (s : DBState) (uid : UUID) (r : ConversationMember) :
    Except InsertError DBState :=
  if usersCanJoinOrAddMembers s uid r then
    if s.conversation_members.any
        (fun m => m.conversation_id == r.conversation_id && m.user_id == r.user_id) then
      .error .uniqueViolation
    else
      .ok { s with conversation_members := r :: s.conversation_members }
  else
    .error .policyDenied

/-- INSERT into `read_receipts` by caller `uid`: the RLS `WITH CHECK` of the
INSERT policy must pass, then `UNIQUE(message_id, user_id)` must hold. -/
def insert_read_receipt (s : DBState) (uid : UUID) (r : ReadReceipt) :
    Except InsertError DBState :=
  if usersCanMarkMessagesAsRead s uid r then
    if s.read_receipts.any
        (fun x => x.message_id == r.message_id && x.user_id == r.user_id) then
      .error .uniqueViolation
    else
      .ok { s with read_receipts := r :: s.read_receipts }
  else
    .error .policyDenied

/-- Running an INSERT statement against `read_receipts`: a failed statement
aborts and leaves the database unchanged. -/
def exec_insert_read_receipt (s : DBState) (uid : UUID) (r : ReadReceipt) : DBState :=
  match insert_read_receipt s uid r with
  | .ok s2 => s2
  | .error _ => s

/-- The effect of caller `uid` issuing `DELETE FROM conversation_members
WHERE conversation_id = cid AND user_id = uid` ("leaving"): under the DELETE
policy `user_id = auth.uid()` every matched row is the caller's own, so all
matched rows are removed. -/
def leave_conversation (s : DBState) (uid cid : UUID) : DBState :=
  { s with conversation_members :=
      s.conversation_members.filter (fun m => !(m.conversation_id == cid && m.user_id == uid)) }

/-- A conversation is an orphan in state `s` when no membership row
references it. -/
def orphan (s : DBState) (c : Conversation) : Bool :=
  s.conversation_members.all (fun m => !(m.conversation_id == c.id))

/-- A new row of `auth.users` as seen by the signup trigger: its id, email,
and the `raw_user_meta_data->>'display_name'` field (absent when the JSON key
is missing). The auth table itself is owned by the platform. -/
structure AuthUser where
  id : UUID
  email : String
  meta_display_name : Option String
deriving DecidableEq, Repr

/-- The trigger function `public.handle_new_user()`: builds the profile row
`(NEW.id, COALESCE(NEW.raw_user_meta_data->>'display_name', NEW.email))`
inserted for each new auth user. -/
def handle_new_user (u : AuthUser) : Profile :=
  { id := u.id
    display_name := u.meta_display_name.getD u.email
    avatar_url := none }

/-- The auth subsystem's user table together with the public schema. -/
structure AuthState where
  users : List AuthUser
  db : DBState
deriving DecidableEq, Repr

/-- Identity creation (INSERT into `auth.users`) and the `AFTER INSERT`
trigger `on_auth_user_created` run in one transaction: the new auth row and
the profile row built by `handle_new_user` are added together, and a
uniqueness failure of either insert (duplicate auth id, or duplicate profile
primary key `id`) aborts the whole transaction, creating nothing. -/
def signup (st : AuthState) (u : AuthUser) : Except InsertError AuthState :=
  if st.users.any (fun x => x.id == u.id) then
    .error .uniqueViolation
  else if st.db.profiles.any (fun p => p.id == u.id) then
    .error .uniqueViolation
  else
    .ok { users := u :: st.users
          db := { st.db with profiles := handle_new_user u :: st.db.profiles } }

/-- The empty database. -/
def emptyDB : DBState := ⟨[], [], [], [], []⟩

/-- Sample conversation used in concrete evaluations. -/
def cW : Conversation := ⟨1, ConversationType.dm, none⟩

/-- Sample membership row: user 7 is a member of conversation 1. -/
def mW : ConversationMember := ⟨5, 1, 7⟩

/-- Sample state: conversation 1 with the single member 7. -/
def sW : DBState := ⟨[], [cW], [mW], [], []⟩

/-- Sample state: conversation 1 with no membership rows (an orphan). -/
def sOrph : DBState := ⟨[], [cW], [], [], []⟩

/-- Self-join row: caller 7 inserts themselves into conversation 1. -/
def rSelfJoin : ConversationMember := ⟨2, 1, 7⟩

/-- The state reached from `sOrph` once user 7 has self-joined. -/
def sOrphJoined : DBState := ⟨[], [cW], [rSelfJoin], [], []⟩

/-- Sample group conversation. -/
def gDup : Conversation := ⟨1, ConversationType.group, none⟩

/-- Sample state: users 10 and 20 are both members of conversation 1. -/
def sDup : DBState := ⟨[], [gDup], [⟨2, 1, 10⟩, ⟨3, 1, 20⟩], [], []⟩

/-- Sample message 4 sent by user 7 into conversation 1. -/
def msgW : Message := ⟨4, 1, 7, "hi"⟩

/-- Sample read receipt: user 7 has read message 4. -/
def rrW : ReadReceipt := ⟨9, 4, 7⟩

/-- Sample state in which the receipt `rrW` already exists. -/
def sRR : DBState := ⟨[], [cW], [mW], [msgW], [rrW]⟩

/-- A second receipt row with the same (message_id, user_id) pair as `rrW`. -/
def rrNew : ReadReceipt := ⟨10, 4, 7⟩

/-- Sample state with message 4 present and no receipts yet. -/
def sRR0 : DBState := ⟨[], [cW], [mW], [msgW], []⟩

/-- Sample new auth user with no display_name metadata. -/
def uA : AuthUser := ⟨3, "a@b", none⟩

/-- Sample auth state with no users and an empty database. -/
def stA : AuthState := ⟨[], emptyDB⟩

/-- Sample auth state in which a profile with id 3 already exists. -/
def stDupProfile : AuthState := ⟨[], ⟨[⟨3, "x", none⟩], [], [], [], []⟩⟩

theorem is_conversation_member_iff_exists (s : DBState) (cid uid : UUID) :
    is_conversation_member s cid uid = true ↔
      ∃ m ∈ s.conversation_members, m.conversation_id = cid ∧ m.user_id = uid := by
  simp [is_conversation_member, List.any_eq_true]

theorem orphan_no_member (s : DBState) (c : Conversation) (h : orphan s c = true) (uid : UUID) :
    is_conversation_member s c.id uid = false := by
  simp only [orphan, List.all_eq_true] at h
  simp only [is_conversation_member, List.any_eq_false]
  intro m hm
  have hne := h m hm
  simp only [Bool.not_eq_eq_eq_not, Bool.not_true, beq_eq_false_iff_ne, ne_eq] at hne
  simp [hne]

/-- C1: a SELECT on the conversations table by authenticated caller U
returns the row for conversation C if and only if a membership row
(conversation_id = C, user_id = U) exists at evaluation time. -/
theorem conversations_select_iff_membership (s : DBState) (uid : UUID) (c : Conversation)
    (hc : c ∈ s.conversations) :
    c ∈ select_conversations s uid ↔
      ∃ m ∈ s.conversation_members, m.conversation_id = c.id ∧ m.user_id = uid := by
  rw [← is_conversation_member_iff_exists]
  simp [select_conversations, List.mem_filter, hc, rlsAllows, conversationsPolicies,
    membersCanViewConversations]

/-- Witness for C1, at a state where user 7 is a member of conversation 1. -/
theorem conversations_select_iff_membership_witness :
    cW ∈ select_conversations sW 7 :=
  (conversations_select_iff_membership sW 7 cW (by decide)).mpr ⟨mW, by decide, by decide⟩

/-- C3: an UPDATE or DELETE on a message is permitted iff the caller is the
message's sender, and the decision is independent of the database state, in
particular of any membership rows the caller holds. -/
theorem message_update_delete_author_only (s s2 : DBState) (uid : UUID) (m : Message) :
    (rlsAllows (messagesPolicies SqlOp.update) s uid m = true ↔ m.sender_id = uid) ∧
    (rlsAllows (messagesPolicies SqlOp.delete) s uid m = true ↔ m.sender_id = uid) ∧
    rlsAllows (messagesPolicies SqlOp.update) s uid m =
      rlsAllows (messagesPolicies SqlOp.update) s2 uid m ∧
    rlsAllows (messagesPolicies SqlOp.delete) s uid m =
      rlsAllows (messagesPolicies SqlOp.delete) s2 uid m := by
  simp [rlsAllows, messagesPolicies, sendersCanUpdateMessages, sendersCanDeleteMessages]

/-- C6: a DELETE of a conversation_members row is permitted iff the row's
user_id equals the caller, independent of the database state (so a caller
who is a member still cannot delete another member's row). -/
theorem membership_delete_self_only (s s2 : DBState) (uid : UUID) (r : ConversationMember) :
    (rlsAllows (conversationMembersPolicies SqlOp.delete) s uid r = true ↔ r.user_id = uid) ∧
    rlsAllows (conversationMembersPolicies SqlOp.delete) s uid r =
      rlsAllows (conversationMembersPolicies SqlOp.delete) s2 uid r := by
  simp [rlsAllows, conversationMembersPolicies, usersCanLeaveConversations]

/-- C9: every authenticated caller can view every profile row in every
state, while each of the other entities' view policies denies in some state
(the empty database), so profile visibility alone is unconditional. -/
theorem profiles_visible_to_every_caller (s : DBState) (uid : UUID) (p : Profile) :
    rlsAllows (profilesPolicies SqlOp.select) s uid p = true ∧
    rlsAllows (conversationsPolicies SqlOp.select) emptyDB uid cW = false ∧
    rlsAllows (conversationMembersPolicies SqlOp.select) emptyDB uid ⟨2, 1, 3⟩ = false ∧
    rlsAllows (messagesPolicies SqlOp.select) emptyDB uid ⟨4, 1, 3, "hi"⟩ = false ∧
    rlsAllows (readReceiptsPolicies SqlOp.select) emptyDB uid ⟨9, 4, 3⟩ = false :=
  ⟨rfl, rfl, rfl, rfl, rfl⟩

/-- C10: operations with no declared policy are denied for every caller in
every state, since RLS is enabled and permissive policies default to deny:
DELETE on conversations, UPDATE on conversation_members, and UPDATE or
DELETE on read_receipts. -/
theorem missing_policies_deny_all (s : DBState) (uid : UUID) (c : Conversation)
    (r : ConversationMember) (x : ReadReceipt) :
    rlsAllows (conversationsPolicies SqlOp.delete) s uid c = false ∧
    rlsAllows (conversationMembersPolicies SqlOp.update) s uid r = false ∧
    rlsAllows (readReceiptsPolicies SqlOp.update) s uid x = false ∧
    rlsAllows (readReceiptsPolicies SqlOp.delete) s uid x = false :=
  ⟨rfl, rfl, rfl, rfl⟩

/-- C2 counterexample: the orphan state is not permanently unreachable. In
the concrete state `sOrph`, conversation 1 is an orphan and invisible to
user 7, yet user 7's self-join insert passes the membership INSERT policy
and succeeds, after which the conversation is visible to user 7 again. -/
theorem orphan_escape_counterexample :
    orphan sOrph cW = true ∧
    membersCanViewConversations sOrph 7 cW = false ∧
    insert_conversation_member sOrph 7 rSelfJoin = Except.ok sOrphJoined ∧
    membersCanViewConversations sOrphJoined 7 cW = true :=
  ⟨rfl, rfl, rfl, rfl⟩

/-- C2 (amended): while a conversation has zero membership rows, no caller
can view it, update it, post a message into it, or view membership rows for
it; the membership INSERT policy denies every row for it that does not name
the caller, so a caller's self-join is the only permitted step that touches
it — the orphan is invisible but escapable, not permanently unreachable. -/
theorem orphan_invisible_and_self_join_only (s : DBState) (c : Conversation) (uid : UUID)
    (h : orphan s c = true) :
    membersCanViewConversations s uid c = false ∧
    membersCanUpdateConversations s uid c = false ∧
    (∀ r : ConversationMember, r.conversation_id = c.id →
      membersCanViewConversationMembers s uid r = false) ∧
    (∀ m : Message, m.conversation_id = c.id →
      membersCanSendMessages s uid m = false) ∧
    (∀ r : ConversationMember, r.conversation_id = c.id →
      (usersCanJoinOrAddMembers s uid r = true ↔ r.user_id = uid)) := by
  have hm := orphan_no_member s c h
  refine ⟨?_, ?_, ?_, ?_, ?_⟩
  · simpa [membersCanViewConversations] using hm uid
  · simpa [membersCanUpdateConversations] using hm uid
  · intro r hr
    simp [membersCanViewConversationMembers, hr, hm uid]
  · intro m hmc
    simp [membersCanSendMessages, hmc, hm uid]
  · intro r hr
    simp [usersCanJoinOrAddMembers, hr, hm uid]

/-- Witness for the amended C2, at the concrete orphan state `sOrph`. -/
theorem orphan_invisible_and_self_join_only_witness :
    membersCanViewConversations sOrph 7 cW = false ∧
    membersCanUpdateConversations sOrph 7 cW = false :=
  ⟨(orphan_invisible_and_self_join_only sOrph cW 7 (by decide)).1,
   (orphan_invisible_and_self_join_only sOrph cW 7 (by decide)).2.1⟩

theorem insert_conversation_member_ok_iff (s : DBState) (uid : UUID) (r : ConversationMember) :
    (∃ s2, insert_conversation_member s uid r = Except.ok s2) ↔
      (usersCanJoinOrAddMembers s uid r = true ∧
        s.conversation_members.any
          (fun m => m.conversation_id == r.conversation_id && m.user_id == r.user_id) = false) := by
  unfold insert_conversation_member
  by_cases hp : usersCanJoinOrAddMembers s uid r = true
  · rw [if_pos hp]
    by_cases hd : s.conversation_members.any
        (fun m => m.conversation_id == r.conversation_id && m.user_id == r.user_id) = true
    · rw [if_pos hd]
      simp [hp, hd]
    · rw [if_neg hd]
      simp only [Bool.not_eq_true] at hd
      simp [hp, hd]
  · rw [if_neg hp]
    simp [hp]

/-- C4 counterexample: with users 10 and 20 both members of conversation 1,
caller 10's insert of a row naming user 20 is permitted by the policy (10 is
a member, 20 ≠ 10) but does not succeed: the UNIQUE(conversation_id,
user_id) constraint rejects it, refuting "succeeds if and only if the caller
already holds a membership row". -/
theorem member_insert_iff_counterexample :
    is_conversation_member sDup 1 10 = true ∧
    (20 : UUID) ≠ 10 ∧
    usersCanJoinOrAddMembers sDup 10 ⟨4, 1, 20⟩ = true ∧
    insert_conversation_member sDup 10 ⟨4, 1, 20⟩ = Except.error InsertError.uniqueViolation :=
  ⟨rfl, by decide, rfl, rfl⟩

/-- C4 (amended): an insert of a membership row naming W ≠ U is permitted by
the INSERT policy iff caller U already holds a membership row for that
conversation, and a self-join row is always permitted by the policy; the
insert succeeds iff the policy permits it AND no membership row with the
same (conversation_id, user_id) pair already exists. -/
theorem member_insert_policy_and_uniqueness (s : DBState) (uid : UUID) (r : ConversationMember) :
    (r.user_id ≠ uid →
      (usersCanJoinOrAddMembers s uid r = true ↔
        is_conversation_member s r.conversation_id uid = true)) ∧
    (r.user_id = uid → usersCanJoinOrAddMembers s uid r = true) ∧
    ((∃ s2, insert_conversation_member s uid r = Except.ok s2) ↔
      (usersCanJoinOrAddMembers s uid r = true ∧
        ∀ m ∈ s.conversation_members,
          ¬(m.conversation_id = r.conversation_id ∧ m.user_id = r.user_id))) := by
  refine ⟨?_, ?_, ?_⟩
  · intro hne
    simp [usersCanJoinOrAddMembers, hne]
  · intro he
    simp [usersCanJoinOrAddMembers, he]
  · rw [insert_conversation_member_ok_iff]
    simp [List.any_eq_false, not_and]

/-- Witness for the amended C4: in `sW` (user 7 a member of conversation 1)
caller 7 may add user 8, and the insert of the row naming user 8 succeeds. -/
theorem member_insert_policy_and_uniqueness_witness :
    usersCanJoinOrAddMembers sW 7 ⟨6, 1, 8⟩ = true ∧
    (∃ s2, insert_conversation_member sW 7 ⟨6, 1, 8⟩ = Except.ok s2) :=
  ⟨((member_insert_policy_and_uniqueness sW 7 ⟨6, 1, 8⟩).1 (by decide)).mpr (by decide),
   (member_insert_policy_and_uniqueness sW 7 ⟨6, 1, 8⟩).2.2.mpr ⟨by decide, by decide⟩⟩

/-- C5: an INSERT into messages is permitted iff the row's sender_id equals
the caller and the caller holds a membership row for the target conversation
at evaluation time; after the caller deletes their own membership for that
conversation, the INSERT policy denies them. -/
theorem message_insert_iff_sender_and_member (s : DBState) (uid : UUID) (m : Message) :
    (membersCanSendMessages s uid m = true ↔
      (m.sender_id = uid ∧
        ∃ r ∈ s.conversation_members,
          r.conversation_id = m.conversation_id ∧ r.user_id = uid)) ∧
    membersCanSendMessages (leave_conversation s uid m.conversation_id) uid m = false := by
  constructor
  · rw [membersCanSendMessages, Bool.and_eq_true, is_conversation_member_iff_exists,
      beq_iff_eq]
  · have hmem : is_conversation_member (leave_conversation s uid m.conversation_id)
        m.conversation_id uid = false := by
      simp only [is_conversation_member, leave_conversation, List.any_eq_false,
        List.mem_filter]
      intro r hr
      intro hcon
      rw [hcon] at hr
      simp at hr
    simp [membersCanSendMessages, hmem]

/-- C7: inserting a read receipt that duplicates an existing (message_id,
user_id) pair fails with a uniqueness violation and leaves the database —
in particular the existing row — unchanged; the first such insert by the
user for a message succeeds when the user is a member of the message's
conversation, and preserves all existing receipts. -/
theorem read_receipt_unique_and_first_insert (s : DBState) (uid : UUID) (r : ReadReceipt) :
    ((∃ x ∈ s.read_receipts, x.message_id = r.message_id ∧ x.user_id = r.user_id) →
      usersCanMarkMessagesAsRead s uid r = true →
      insert_read_receipt s uid r = Except.error InsertError.uniqueViolation ∧
      exec_insert_read_receipt s uid r = s) ∧
    ((∀ x ∈ s.read_receipts, ¬(x.message_id = r.message_id ∧ x.user_id = r.user_id)) →
      r.user_id = uid →
      (∃ msg ∈ s.messages, msg.id = r.message_id ∧
        is_conversation_member s msg.conversation_id uid = true) →
      ∃ s2, insert_read_receipt s uid r = Except.ok s2 ∧ r ∈ s2.read_receipts ∧
        ∀ x ∈ s.read_receipts, x ∈ s2.read_receipts) := by
  constructor
  · intro hdup hpol
    have hd : s.read_receipts.any
        (fun x => x.message_id == r.message_id && x.user_id == r.user_id) = true := by
      simp only [List.any_eq_true, Bool.and_eq_true, beq_iff_eq]
      exact hdup
    have h1 : insert_read_receipt s uid r = Except.error InsertError.uniqueViolation := by
      unfold insert_read_receipt
      rw [if_pos hpol, if_pos hd]
    refine ⟨h1, ?_⟩
    unfold exec_insert_read_receipt
    rw [h1]
  · intro hfresh huser hmsg
    have hpol : usersCanMarkMessagesAsRead s uid r = true := by
      simp only [usersCanMarkMessagesAsRead, Bool.and_eq_true, beq_iff_eq,
        List.any_eq_true]
      obtain ⟨msg, hmem, hid, hismem⟩ := hmsg
      exact ⟨huser, msg, hmem, by simp [hid], hismem⟩
    have hd : ¬(s.read_receipts.any
        (fun x => x.message_id == r.message_id && x.user_id == r.user_id) = true) := by
      simp only [List.any_eq_true, Bool.and_eq_true, beq_iff_eq]
      rintro ⟨x, hx, h1, h2⟩
      exact hfresh x hx ⟨h1, h2⟩
    refine ⟨{ s with read_receipts := r :: s.read_receipts }, ?_, ?_, ?_⟩
    · unfold insert_read_receipt
      rw [if_pos hpol, if_neg hd]
    · exact List.mem_cons_self r s.read_receipts
    · intro x hx
      exact List.mem_cons_of_mem r hx

/-- Witness for C7: in `sRR` the duplicate insert of `rrNew` (same message 4
and user 7 as the existing `rrW`) hits the UNIQUE constraint and changes
nothing; in `sRR0` the first insert of `rrW` by member 7 succeeds. -/
theorem read_receipt_unique_and_first_insert_witness :
    (insert_read_receipt sRR 7 rrNew = Except.error InsertError.uniqueViolation ∧
      exec_insert_read_receipt sRR 7 rrNew = sRR) ∧
    (∃ s2, insert_read_receipt sRR0 7 rrW = Except.ok s2 ∧ rrW ∈ s2.read_receipts ∧
      ∀ x ∈ sRR0.read_receipts, x ∈ s2.read_receipts) :=
  ⟨(read_receipt_unique_and_first_insert sRR 7 rrNew).1 (by decide) (by decide),
   (read_receipt_unique_and_first_insert sRR0 7 rrW).2 (by decide) (by decide) (by decide)⟩

/-- C8: creating a new identity fires the signup trigger in the same
transaction: when the new id is fresh, signup succeeds and the database
holds exactly one profile row with that id, whose display name is the
supplied display_name metadata when present and the identity's email
otherwise; when the profile insert would fail (a profile with that id
already exists), the whole identity creation aborts with the error. -/
theorem signup_creates_single_profile (st : AuthState) (u : AuthUser) :
    ((∀ x ∈ st.users, x.id ≠ u.id) → (∀ p ∈ st.db.profiles, p.id ≠ u.id) →
      ∃ st2, signup st u = Except.ok st2 ∧
        (st2.db.profiles.filter (fun p => p.id == u.id)).length = 1 ∧
        (∀ p ∈ st2.db.profiles, p.id = u.id →
          p.display_name = u.meta_display_name.getD u.email) ∧
        st2.users = u :: st.users) ∧
    ((∃ p ∈ st.db.profiles, p.id = u.id) →
      signup st u = Except.error InsertError.uniqueViolation) := by
  constructor
  · intro hu hp
    have hu2 : st.users.any (fun x => x.id == u.id) = false := by
      simp only [List.any_eq_false, beq_iff_eq]
      exact hu
    have hp2 : st.db.profiles.any (fun p => p.id == u.id) = false := by
      simp only [List.any_eq_false, beq_iff_eq]
      exact hp
    have hok : signup st u =
        Except.ok ⟨u :: st.users,
          { st.db with profiles := handle_new_user u :: st.db.profiles }⟩ := by
      unfold signup
      rw [if_neg (by simp [hu2]), if_neg (by simp [hp2])]
    refine ⟨_, hok, ?_, ?_, rfl⟩
    · have hnil : st.db.profiles.filter (fun p => p.id == u.id) = [] := by
        rw [List.filter_eq_nil_iff]
        intro p hmem
        simpa using hp p hmem
      simp [handle_new_user, List.filter_cons, hnil]
    · intro p hmem hid
      rcases List.mem_cons.mp hmem with heq | htail
      · rw [heq]
        rfl
      · exact absurd hid (hp p htail)
  · intro hdup
    have hp2 : st.db.profiles.any (fun p => p.id == u.id) = true := by
      simp only [List.any_eq_true, beq_iff_eq]
      exact hdup
    unfold signup
    by_cases hu2 : st.users.any (fun x => x.id == u.id) = true
    · rw [if_pos hu2]
    · rw [if_neg hu2, if_pos hp2]

/-- Witness for C8: a fresh signup of user 3 with no metadata against the
empty state succeeds, and against a state already holding profile 3 the
identity creation aborts. -/
theorem signup_creates_single_profile_witness :
    (∃ st2, signup stA uA = Except.ok st2 ∧
      (st2.db.profiles.filter (fun p => p.id == uA.id)).length = 1 ∧
      (∀ p ∈ st2.db.profiles, p.id = uA.id →
        p.display_name = uA.meta_display_name.getD uA.email) ∧
      st2.users = uA :: stA.users) ∧
    signup stDupProfile uA = Except.error InsertError.uniqueViolation :=
  ⟨(signup_creates_single_profile stA uA).1 (by decide) (by decide),
   (signup_creates_single_profile stDupProfile uA).2 ⟨⟨3, "x", none⟩, by decide, rfl⟩⟩

end RealChatLive
